import Mathlib

/-!
# Verification of the SylvaWebsite client script (`js/main.js`)

A shallow embedding of the scroll-effects controller, the mobile-menu
toggle, the waitlist form submit handler, the lifecycle rotating panel and
the `requestAnimationFrame` coalescing pattern of `js/main.js`, together
with proofs of the spec's claims about them.

Modelling conventions:
* JavaScript numbers are modelled by `JSVal`: an exact rational together
  with the three IEEE special values `nan`, `inf` (`Infinity`) and `ninf`
  (`-Infinity`).  Arithmetic on the rational part is exact; this is
  adequate here because every claim is a clamping/sign argument that is
  monotone, hence stable under correct rounding.  Negative zero is not
  distinguished from zero (every zero divisor arising in the script is a
  DOM `offsetHeight`, a non-negative integer).
* DOM element lookups (`querySelector`, `getElementById`) are modelled as
  `Option` values; dereferencing a missing element is a `TypeError`,
  modelled with `Except`.
* `element.offsetHeight` is a non-negative integer, so heights are `ℕ`.
-/

/-- A JavaScript number: an exact rational, or one of the IEEE special
values `NaN`, `Infinity`, `-Infinity`. -/
inductive JSVal where
  | num (q : ℚ)
  | nan
  | inf
  | ninf
deriving DecidableEq, Repr

/-- JavaScript `+` on numbers. -/
def jsAdd : JSVal → JSVal → JSVal
  | .num a, .num b => .num (a + b)
  | .inf, .ninf => .nan
  | .ninf, .inf => .nan
  | .inf, .num _ => .inf
  | .num _, .inf => .inf
  | .inf, .inf => .inf
  | .ninf, .num _ => .ninf
  | .num _, .ninf => .ninf
  | .ninf, .ninf => .ninf
  | _, _ => .nan

/-- JavaScript `-` on numbers. -/
def jsSub : JSVal → JSVal → JSVal
  | .num a, .num b => .num (a - b)
  | .inf, .inf => .nan
  | .ninf, .ninf => .nan
  | .inf, .num _ => .inf
  | .num _, .inf => .ninf
  | .inf, .ninf => .inf
  | .ninf, .num _ => .ninf
  | .num _, .ninf => .inf
  | .ninf, .inf => .ninf
  | _, _ => .nan

/-- JavaScript `*` on numbers. -/
def jsMul : JSVal → JSVal → JSVal
  | .num a, .num b => .num (a * b)
  | .num a, .inf => if 0 < a then .inf else if a < 0 then .ninf else .nan
  | .inf, .num a => if 0 < a then .inf else if a < 0 then .ninf else .nan
  | .num a, .ninf => if 0 < a then .ninf else if a < 0 then .inf else .nan
  | .ninf, .num a => if 0 < a then .ninf else if a < 0 then .inf else .nan
  | .inf, .inf => .inf
  | .inf, .ninf => .ninf
  | .ninf, .inf => .ninf
  | .ninf, .ninf => .inf
  | _, _ => .nan

/-- JavaScript `/` on numbers (zero divisor treated as `+0`: the only zero
divisors in the script come from non-negative `offsetHeight` values). -/
def jsDiv : JSVal → JSVal → JSVal
  | .num a, .num b =>
      if b = 0 then (if a = 0 then .nan else if 0 < a then .inf else .ninf)
      else .num (a / b)
  | .num _, .inf => .num 0
  | .num _, .ninf => .num 0
  | .inf, .num b => if b < 0 then .ninf else .inf
  | .ninf, .num b => if b < 0 then .inf else .ninf
  | _, _ => .nan

/-- JavaScript `Math.min` (returns `NaN` when any argument is `NaN`). -/
def jsMin : JSVal → JSVal → JSVal
  | .nan, _ => .nan
  | _, .nan => .nan
  | .ninf, _ => .ninf
  | _, .ninf => .ninf
  | .inf, b => b
  | a, .inf => a
  | .num a, .num b => .num (min a b)

/-- JavaScript `Math.max` (returns `NaN` when any argument is `NaN`). -/
def jsMax : JSVal → JSVal → JSVal
  | .nan, _ => .nan
  | _, .nan => .nan
  | .inf, _ => .inf
  | _, .inf => .inf
  | .ninf, b => b
  | a, .ninf => a
  | .num a, .num b => .num (max a b)

/-- JavaScript `Math.pow (·, 3)`. -/
def jsPow3 : JSVal → JSVal
  | .num a => .num (a ^ 3)
  | .inf => .inf
  | .ninf => .ninf
  | .nan => .nan

/-- JavaScript `Math.sin`, parametrised by its behaviour on finite inputs
(which is irrelevant to the claims: only `Math.sin NaN = Math.sin (±∞) =
NaN` matters). -/
def jsSinWith (s : ℚ → ℚ) : JSVal → JSVal
  | .num a => .num (s a)
  | _ => .nan

@[simp] theorem jsAdd_num (a b : ℚ) : jsAdd (.num a) (.num b) = .num (a + b) := rfl
@[simp] theorem jsSub_num (a b : ℚ) : jsSub (.num a) (.num b) = .num (a - b) := rfl
@[simp] theorem jsMul_num (a b : ℚ) : jsMul (.num a) (.num b) = .num (a * b) := rfl
@[simp] theorem jsMin_num (a b : ℚ) : jsMin (.num a) (.num b) = .num (min a b) := rfl
@[simp] theorem jsMax_num (a b : ℚ) : jsMax (.num a) (.num b) = .num (max a b) := rfl
@[simp] theorem jsPow3_num (a : ℚ) : jsPow3 (.num a) = .num (a ^ 3) := rfl

theorem jsDiv_num_of_ne (a b : ℚ) (hb : b ≠ 0) :
    jsDiv (.num a) (.num b) = .num (a / b) := by
  simp [jsDiv, hb]

theorem jsDiv_num_zero_pos (a : ℚ) (ha : 0 < a) :
    jsDiv (.num a) (.num 0) = .inf := by
  simp [jsDiv, ha, ha.ne']

theorem jsDiv_num_zero_neg (a : ℚ) (ha : a < 0) :
    jsDiv (.num a) (.num 0) = .ninf := by
  simp [jsDiv, ha.ne, not_lt.mpr ha.le]

@[simp] theorem jsSub_num_inf (a : ℚ) : jsSub (.num a) .inf = .ninf := rfl
@[simp] theorem jsSub_num_ninf (a : ℚ) : jsSub (.num a) .ninf = .inf := rfl
@[simp] theorem jsMax_num_ninf (a : ℚ) : jsMax (.num a) .ninf = .num a := rfl

/-! ## `updateHeroFade` (js/main.js lines 89–107)

```js
const scrollY = window.scrollY;
const headerHeight = header.offsetHeight;
const fadeStart = 50;
const fadeEnd = headerHeight * 0.8;
const fadeProgress = Math.max(0, Math.min(1, (scrollY - fadeStart) / (fadeEnd - fadeStart)));
const easedFade = 1 - Math.pow(1 - fadeProgress, 3);
hero.style.opacity = 1 - easedFade;
```
-/

/-- `fadeStart` of `updateHeroFade`. -/
def fadeStart : ℚ := 50

/-- `fadeEnd` of `updateHeroFade`: `headerHeight * 0.8`. -/
def fadeEnd (headerHeight : ℕ) : ℚ := (headerHeight : ℚ) * (4 / 5)

/-- `fadeProgress` of `updateHeroFade`. -/
def fadeProgress (scrollY : ℚ) (headerHeight : ℕ) : JSVal :=
  jsMax (.num 0) (jsMin (.num 1)
    (jsDiv (jsSub (.num scrollY) (.num fadeStart))
           (jsSub (.num (fadeEnd headerHeight)) (.num fadeStart))))

/-- `easedFade` of `updateHeroFade`: `1 - Math.pow(1 - fadeProgress, 3)`. -/
def easedFade (scrollY : ℚ) (headerHeight : ℕ) : JSVal :=
  jsSub (.num 1) (jsPow3 (jsSub (.num 1) (fadeProgress scrollY headerHeight)))

/-- The opacity `updateHeroFade` writes to `hero.style.opacity`:
`1 - easedFade`. -/
def heroOpacity (scrollY : ℚ) (headerHeight : ℕ) : JSVal :=
  jsSub (.num 1) (easedFade scrollY headerHeight)

/-- The divisor `fadeEnd - fadeStart` is never zero: `offsetHeight` is an
integer and `0.8 · h = 50` has no integer solution. -/
theorem fadeDenom_ne_zero (headerHeight : ℕ) :
    fadeEnd headerHeight - fadeStart ≠ 0 := by
  intro hEq
  have h1 : (headerHeight : ℚ) * (4 / 5) = 50 := by
    unfold fadeEnd fadeStart at hEq; linarith
  have h2 : ((2 * headerHeight : ℕ) : ℚ) = (125 : ℕ) := by push_cast; linarith
  have h3 : 2 * headerHeight = 125 := Nat.cast_injective h2
  omega

/-- `fadeProgress` is always a finite value in `[0, 1]`. -/
theorem fadeProgress_mem (scrollY : ℚ) (headerHeight : ℕ) :
    ∃ p : ℚ, fadeProgress scrollY headerHeight = .num p ∧ 0 ≤ p ∧ p ≤ 1 := by
  have hd := fadeDenom_ne_zero headerHeight
  refine ⟨max 0 (min 1 ((scrollY - fadeStart) / (fadeEnd headerHeight - fadeStart))), ?_, ?_, ?_⟩
  · unfold fadeProgress
    rw [jsSub_num, jsSub_num, jsDiv_num_of_ne _ _ hd, jsMin_num, jsMax_num]
  · exact le_max_left _ _
  · exact max_le zero_le_one (min_le_left _ _)

/-- The opacity written by `updateHeroFade` is always a finite value in
`[0, 1]`. -/
theorem heroOpacity_mem (scrollY : ℚ) (headerHeight : ℕ) :
    ∃ q : ℚ, heroOpacity scrollY headerHeight = .num q ∧ 0 ≤ q ∧ q ≤ 1 := by
  obtain ⟨p, hp, hp0, hp1⟩ := fadeProgress_mem scrollY headerHeight
  refine ⟨1 - (1 - (1 - p) ^ 3), ?_, ?_, ?_⟩
  · unfold heroOpacity easedFade
    rw [hp, jsSub_num, jsPow3_num, jsSub_num, jsSub_num]
  · have h0 : 0 ≤ (1 - p) ^ 3 := pow_nonneg (by linarith) 3
    linarith
  · have h1 : (1 - p) ^ 3 ≤ 1 :=
      pow_le_one₀ (by linarith : (0:ℚ) ≤ 1 - p) (by linarith : (1:ℚ) - p ≤ 1)
    linarith

/-! ## `updateOrbPositions` (js/main.js lines 571–613)

```js
const sectionHeight = whatIsSection.offsetHeight;
const scrollIntoSection = -rect.top;
const scrollProgress = scrollIntoSection / sectionHeight;
// per orb (index):
const startY = sectionHeight * 0.7 + (index * (isMobile ? 60 : 80));
const speed = isMobile ? 0.6 + (index * 0.1) : 0.8 + (index * 0.15);
const orbY = startY - (scrollIntoSection * speed);
const baseX = ((index % 4) - 1.5) * (isMobile ? 150 : 200) + (index * (isMobile ? 20 : 30));
const wobble = Math.sin(scrollProgress * Math.PI * 2 + index) * (isMobile ? 12 : 20);
const orbX = baseX + wobble;
let opacity = isMobile ? 0.75 : 0.85;
if (orbY > sectionHeight * 0.8) {
  opacity = Math.max(0, 1 - (orbY - sectionHeight * 0.8) / (sectionHeight * 0.3));
  opacity *= isMobile ? 0.75 : 0.85;
}
if (orbY < sectionHeight * 0.1) {
  opacity = Math.max(0, orbY / (sectionHeight * 0.1));
  opacity *= isMobile ? 0.75 : 0.85;
}
```
-/

/-- `scrollProgress` of `updateOrbPositions`: `scrollIntoSection /
sectionHeight`, with no clamping. -/
def scrollProgress (sectionHeight : ℕ) (scrollIntoSection : ℚ) : JSVal :=
  jsDiv (.num scrollIntoSection) (.num (sectionHeight : ℚ))

/-- `startY` of an orb. -/
def orbStartY (sectionHeight : ℕ) (index : ℕ) (isMobile : Bool) : ℚ :=
  (sectionHeight : ℚ) * (7 / 10) + (index : ℚ) * (if isMobile then 60 else 80)

/-- `speed` of an orb. -/
def orbSpeed (index : ℕ) (isMobile : Bool) : ℚ :=
  if isMobile then 3 / 5 + (index : ℚ) * (1 / 10)
  else 4 / 5 + (index : ℚ) * (3 / 20)

/-- `orbY`: the vertical position of an orb, an exact rational (no
division involved). -/
def orbY (sectionHeight : ℕ) (scrollIntoSection : ℚ) (index : ℕ) (isMobile : Bool) : ℚ :=
  orbStartY sectionHeight index isMobile - scrollIntoSection * orbSpeed index isMobile

/-- `baseX` of an orb. -/
def orbBaseX (index : ℕ) (isMobile : Bool) : ℚ :=
  (((index % 4 : ℕ) : ℚ) - 3 / 2) * (if isMobile then 150 else 200) +
    (index : ℚ) * (if isMobile then 20 else 30)

/-- `wobble` of an orb: `Math.sin(scrollProgress * Math.PI * 2 + index) *
(isMobile ? 12 : 20)`, parametrised by the finite behaviour of `Math.sin`
and the rational double `Math.PI`. -/
def orbWobble (sin : ℚ → ℚ) (pi : ℚ) (sectionHeight : ℕ) (scrollIntoSection : ℚ)
    (index : ℕ) (isMobile : Bool) : JSVal :=
  jsMul (jsSinWith sin
      (jsAdd (jsMul (jsMul (scrollProgress sectionHeight scrollIntoSection) (.num pi)) (.num 2))
        (.num (index : ℚ))))
    (.num (if isMobile then 12 else 20))

/-- `orbX`: the horizontal position written into the orb transform. -/
def orbX (sin : ℚ → ℚ) (pi : ℚ) (sectionHeight : ℕ) (scrollIntoSection : ℚ)
    (index : ℕ) (isMobile : Bool) : JSVal :=
  jsAdd (.num (orbBaseX index isMobile))
    (orbWobble sin pi sectionHeight scrollIntoSection index isMobile)

/-- The base opacity factor `isMobile ? 0.75 : 0.85`. -/
def orbBaseOpacity (isMobile : Bool) : ℚ := if isMobile then 3 / 4 else 17 / 20

/-- The opacity `updateOrbPositions` writes to `orb.style.opacity` for the
orb at `index` (the two sequential `if`s of the source: the second, when
its condition holds, overwrites the result of the first). -/
def orbOpacity (sectionHeight : ℕ) (scrollIntoSection : ℚ) (index : ℕ)
    (isMobile : Bool) : JSVal :=
  let y := orbY sectionHeight scrollIntoSection index isMobile
  let base := orbBaseOpacity isMobile
  let afterFadeIn : JSVal :=
    if (sectionHeight : ℚ) * (4 / 5) < y then
      jsMul (jsMax (.num 0) (jsSub (.num 1)
          (jsDiv (.num (y - (sectionHeight : ℚ) * (4 / 5)))
                 (.num ((sectionHeight : ℚ) * (3 / 10))))))
        (.num base)
    else .num base
  if y < (sectionHeight : ℚ) * (1 / 10) then
    jsMul (jsMax (.num 0) (jsDiv (.num y) (.num ((sectionHeight : ℚ) * (1 / 10)))))
      (.num base)
  else afterFadeIn

theorem orbBaseOpacity_nonneg (isMobile : Bool) : 0 ≤ orbBaseOpacity isMobile := by
  cases isMobile <;> norm_num [orbBaseOpacity]

theorem orbBaseOpacity_le_one (isMobile : Bool) : orbBaseOpacity isMobile ≤ 1 := by
  cases isMobile <;> norm_num [orbBaseOpacity]

/-- Every orb opacity written by `updateOrbPositions` is a finite value in
`[0, 1]`, for every section height (including zero), scroll offset, orb
index and viewport class. -/
theorem orbOpacity_mem (sectionHeight : ℕ) (scrollIntoSection : ℚ) (index : ℕ)
    (isMobile : Bool) :
    ∃ q : ℚ, orbOpacity sectionHeight scrollIntoSection index isMobile = .num q ∧
      0 ≤ q ∧ q ≤ 1 := by
  set y := orbY sectionHeight scrollIntoSection index isMobile with hy
  have hb0 := orbBaseOpacity_nonneg isMobile
  have hb1 := orbBaseOpacity_le_one isMobile
  rcases Nat.eq_zero_or_pos sectionHeight with hz | hpos
  · subst hz
    simp only [orbOpacity, Nat.cast_zero, zero_mul, ← hy]
    rcases lt_trichotomy y 0 with hneg | hzero | hposy
    · rw [if_pos hneg, jsDiv_num_zero_neg _ hneg, jsMax_num_ninf, jsMul_num]
      exact ⟨0 * orbBaseOpacity isMobile, rfl, by simp, by simp⟩
    · rw [if_neg (by simp [hzero]), if_neg (by simp [hzero])]
      exact ⟨orbBaseOpacity isMobile, rfl, hb0, hb1⟩
    · rw [if_neg (not_lt.mpr hposy.le), if_pos hposy]
      rw [show y - 0 = y by ring, jsDiv_num_zero_pos _ hposy]
      simp only [jsSub_num_inf, jsMax_num_ninf, jsMul_num]
      exact ⟨0 * orbBaseOpacity isMobile, rfl, by simp, by simp⟩
  · have hsh : (0 : ℚ) < (sectionHeight : ℚ) := by exact_mod_cast hpos
    simp only [orbOpacity, ← hy]
    by_cases hlow : y < (sectionHeight : ℚ) * (1 / 10)
    · rw [if_pos hlow, jsDiv_num_of_ne _ _ (by positivity), jsMax_num, jsMul_num]
      refine ⟨_, rfl, mul_nonneg (le_max_left _ _) hb0, ?_⟩
      have hqlt : y / ((sectionHeight : ℚ) * (1 / 10)) < 1 :=
        (div_lt_one (by positivity)).mpr hlow
      calc max 0 (y / ((sectionHeight : ℚ) * (1 / 10))) * orbBaseOpacity isMobile
          ≤ 1 * 1 :=
            mul_le_mul (max_le zero_le_one hqlt.le) hb1 hb0 zero_le_one
        _ = 1 := one_mul 1
    · rw [if_neg hlow]
      by_cases hhigh : (sectionHeight : ℚ) * (4 / 5) < y
      · rw [if_pos hhigh, jsDiv_num_of_ne _ _ (by positivity), jsSub_num, jsMax_num, jsMul_num]
        refine ⟨_, rfl, mul_nonneg (le_max_left _ _) hb0, ?_⟩
        have hqpos : 0 ≤ (y - (sectionHeight : ℚ) * (4 / 5)) / ((sectionHeight : ℚ) * (3 / 10)) := by
          apply div_nonneg (by linarith) (by positivity)
        calc max 0 (1 - (y - (sectionHeight : ℚ) * (4 / 5)) / ((sectionHeight : ℚ) * (3 / 10)))
              * orbBaseOpacity isMobile
            ≤ 1 * 1 :=
              mul_le_mul (max_le zero_le_one (by linarith)) hb1 hb0 zero_le_one
          _ = 1 := one_mul 1
      · rw [if_neg hhigh]
        exact ⟨orbBaseOpacity isMobile, rfl, hb0, hb1⟩

/-! ## `initWaitlistForm` (js/main.js lines 338–412)

The submit handler: it looks up the submit button with
`this.querySelector('button[type="submit"]')` and dereferences it with no
presence check, disables it, shows a loading label, performs the fetch,
and then follows the success path (`response.ok`) or the catch path
(non-ok response — which `throw`s into the catch — or a network
exception).  Timers are modelled as a list of `(delay in ms, action)`
pairs; `fireTimer` applies a timer's callback. -/

/-- The UI state touched by the waitlist submit handler. -/
structure WaitlistState where
  /-- The values currently entered in the form's fields. -/
  formValues : List String
  /-- Whether the `form-success` message element is appended. -/
  successMsgPresent : Bool
  /-- Whether the `form-error` message element is appended. -/
  errorMsgPresent : Bool
  /-- `submitButton.disabled`. -/
  buttonDisabled : Bool
  /-- `submitButton.innerHTML`. -/
  buttonHTML : String
  /-- Whether the button has the `success` class. -/
  buttonSuccessClass : Bool
  /-- Whether the button has the `error` class. -/
  buttonErrorClass : Bool
deriving DecidableEq, Repr

/-- The fetch response, as consulted by the handler: `response.ok`
together with the (never-inspected) body fields. -/
structure Response where
  ok : Bool
  body : List (String × String)
deriving DecidableEq, Repr

/-- The callbacks the handler schedules with `setTimeout`. -/
inductive TimerAction where
  /-- `successMessage.remove()` (scheduled at 5000 ms on success). -/
  | removeSuccessMsg
  /-- Restore the button after success (scheduled at 3000 ms):
  re-enable, restore `originalButtonText`, drop the `success` class. -/
  | resetButtonFromSuccess (orig : String)
  /-- The catch-path cleanup (scheduled at 5000 ms): remove the error
  message, re-enable the button, restore `originalButtonText`, drop the
  `error` class. -/
  | errorCleanup (orig : String)
deriving DecidableEq, Repr

/-- The loading label `'<i class="fas fa-spinner fa-spin"></i> Sending...'`. -/
def sendingHTML : String := "<i class=\"fas fa-spinner fa-spin\"></i> Sending..."

/-- The success label `'<i class="fas fa-check"></i> Thank You!'`. -/
def thankYouHTML : String := "<i class=\"fas fa-check\"></i> Thank You!"

/-- The error label `'<i class="fas fa-exclamation-circle"></i> Error'`. -/
def errorHTML : String := "<i class=\"fas fa-exclamation-circle\"></i> Error"

/-- The handler's prologue: `submitButton.disabled = true` and the loading
label (run before the fetch). -/
def submitStart (s : WaitlistState) : WaitlistState :=
  { s with buttonDisabled := true, buttonHTML := sendingHTML }

/-- The `response.ok` branch: success label and class, `this.reset()`
(clearing every entered value), append the success message, schedule its
removal at 5000 ms and the button restore at 3000 ms. -/
def successPath (orig : String) (s : WaitlistState) :
    WaitlistState × List (ℕ × TimerAction) :=
  ({ s with
      buttonHTML := thankYouHTML
      buttonSuccessClass := true
      formValues := s.formValues.map fun _ => ""
      successMsgPresent := true },
   [(5000, .removeSuccessMsg), (3000, .resetButtonFromSuccess orig)])

/-- The catch path (non-ok response or network exception): error label and
class, append the error message, schedule the combined cleanup at 5000 ms.
The form is never reset here. -/
def failurePath (orig : String) (s : WaitlistState) :
    WaitlistState × List (ℕ × TimerAction) :=
  ({ s with
      buttonHTML := errorHTML
      buttonErrorClass := true
      errorMsgPresent := true },
   [(5000, .errorCleanup orig)])

/-- Apply a fired `setTimeout` callback. -/
def fireTimer : TimerAction → WaitlistState → WaitlistState
  | .removeSuccessMsg, s => { s with successMsgPresent := false }
  | .resetButtonFromSuccess orig, s =>
      { s with buttonDisabled := false, buttonHTML := orig, buttonSuccessClass := false }
  | .errorCleanup orig, s =>
      { s with errorMsgPresent := false, buttonDisabled := false,
               buttonHTML := orig, buttonErrorClass := false }

/-- The whole submit handler.  `submitButton` is the result of the
unchecked `querySelector`; when it is `none` the very first statement
`submitButton.disabled = true` throws a `TypeError`, modelled as
`.error ()`.  `outcome` is the fetch result: `.error ()` for a network
exception, `.ok r` for a response `r`. -/
def handleSubmit (submitButton : Option Unit) (outcome : Except Unit Response)
    (s : WaitlistState) : Except Unit (WaitlistState × List (ℕ × TimerAction)) :=
  match submitButton with
  | none => .error ()
  | some _ =>
      let orig := s.buttonHTML
      let s1 := submitStart s
      .ok (match outcome with
        | .ok r => if r.ok then successPath orig s1 else failurePath orig s1
        | .error _ => failurePath orig s1)

/-- A submission outcome that ends in the catch path: a non-ok response or
a network exception. -/
def failedOutcome : Except Unit Response → Prop
  | .error _ => True
  | .ok r => r.ok = false

/-! ## `initLifecyclePanel` (js/main.js lines 641–751)

`phases` is the fixed 4-element list; `nextPhase` advances
`currentPhase` to `(currentPhase + 1) % phases.length`; an interval timer
fires `nextPhase` every 4000 ms; `mouseenter` clears the interval and
`mouseleave` restarts it. -/

/-- One entry of the `phases` array. -/
structure Phase where
  name : String
  icon : String
  title : String
  text : String
deriving DecidableEq, Repr

/-- The `phases` array of `initLifecyclePanel`. -/
def phases : List Phase :=
  [⟨"seed", "fas fa-seedling", "Seed",
      "30 days, observation only, owner approval required"⟩,
   ⟨"operational", "fas fa-play-circle", "Operational",
      "90+ days, accuracy ≥75%, full primitive access"⟩,
   ⟨"vetted", "fas fa-check-circle", "Vetted",
      "180+ days, accuracy ≥85%, voting and mentorship"⟩,
   ⟨"prestige", "fas fa-crown", "Prestige",
      "365+ days, cross-domain influence, 4x rewards"⟩]

/-- The fixed auto-rotate interval passed to `setInterval`. -/
def autoRotateMs : ℕ := 4000

/-- `nextPhase`'s index update: `(currentPhase + 1) % phases.length`. -/
def nextPhaseIdx (i : ℕ) : ℕ := (i + 1) % phases.length

/-- The state of the lifecycle panel: the current phase index and whether
the auto-rotate interval is active. -/
structure LifecycleState where
  currentPhase : ℕ
  autoRotate : Bool
deriving DecidableEq, Repr

/-- The events that drive the panel when it is not clicked: an interval
tick (which only occurs — i.e. only advances — while the interval is
active), `mouseenter` (`stopAutoRotate`) and `mouseleave`
(`startAutoRotate`). -/
inductive LifecycleEvent where
  | tick
  | mouseenter
  | mouseleave
deriving DecidableEq, Repr

/-- One step of the lifecycle panel. -/
def lifecycleStep : LifecycleEvent → LifecycleState → LifecycleState
  | .tick, s =>
      if s.autoRotate then { s with currentPhase := nextPhaseIdx s.currentPhase } else s
  | .mouseenter, s => { s with autoRotate := false }
  | .mouseleave, s => { s with autoRotate := true }

/-- Run a sequence of lifecycle events. -/
def lifecycleRun (es : List LifecycleEvent) (s : LifecycleState) : LifecycleState :=
  es.foldl (fun s e => lifecycleStep e s) s

/-- The state after `updateDisplay(0, false); startAutoRotate()`. -/
def lifecycleInit : LifecycleState := ⟨0, true⟩

theorem lifecycleRun_ticks (n i : ℕ) :
    lifecycleRun (List.replicate n .tick) ⟨i % 4, true⟩ = ⟨(i + n) % 4, true⟩ := by
  induction n generalizing i with
  | zero => simp [lifecycleRun]
  | succ n ih =>
      rw [List.replicate_succ]
      have hstep : lifecycleStep .tick ⟨i % 4, true⟩ = ⟨(i + 1) % 4, true⟩ := by
        simp [lifecycleStep, nextPhaseIdx, phases, Nat.mod_add_mod]
      calc lifecycleRun (.tick :: List.replicate n .tick) ⟨i % 4, true⟩
          = lifecycleRun (List.replicate n .tick) ⟨(i + 1) % 4, true⟩ := by
            simp [lifecycleRun, hstep]
        _ = ⟨(i + 1 + n) % 4, true⟩ := ih (i + 1)
        _ = ⟨(i + (n + 1)) % 4, true⟩ := by ring_nf

/-! ## `toggleMenu` (js/main.js lines 143–175)

```js
isMenuOpen = !isMenuOpen;
menuToggle.setAttribute('aria-expanded', isMenuOpen);
menuToggle.classList.toggle('active', isMenuOpen);
navOverlay.classList.toggle('active', isMenuOpen);
navLinks.classList.toggle('active', isMenuOpen);
if (isMenuOpen) {
  scrollbarWidth = getScrollbarWidth();
  document.body.style.setProperty('--scrollbar-width', `...px`);
  html.classList.add('menu-open');
  /* focus first nav item */
} else {
  html.classList.remove('menu-open');
  /* focus menu toggle */
}
```
-/

/-- The DOM state touched by `toggleMenu`. -/
structure MenuState where
  /-- The closure variable `isMenuOpen`. -/
  isMenuOpen : Bool
  /-- `aria-expanded` on the toggle button (set to the string form of
  `isMenuOpen`). -/
  ariaExpanded : String
  /-- The `active` class on the toggle button. -/
  toggleActive : Bool
  /-- The `active` class on the nav overlay. -/
  overlayActive : Bool
  /-- The `active` class on the nav links container. -/
  navLinksActive : Bool
  /-- The `menu-open` class on `document.documentElement`. -/
  htmlMenuOpen : Bool
  /-- The `--scrollbar-width` property on `document.body` (only ever set,
  never removed). -/
  scrollbarWidthProp : Option ℚ
deriving DecidableEq, Repr

/-- `toggleMenu`, with the freshly measured scrollbar width as input. -/
def toggleMenu (scrollbarWidth : ℚ) (s : MenuState) : MenuState :=
  let opened := !s.isMenuOpen
  let s' : MenuState :=
    { s with
        isMenuOpen := opened
        ariaExpanded := if opened then "true" else "false"
        toggleActive := opened
        overlayActive := opened
        navLinksActive := opened }
  if opened then
    { s' with scrollbarWidthProp := some scrollbarWidth, htmlMenuOpen := true }
  else
    { s' with htmlMenuOpen := false }

/-- The closed-menu state the page starts in: menu closed, `aria-expanded`
the string `"false"`, no `active` classes, no `menu-open` class. -/
def closedMenuState (s : MenuState) : Prop :=
  s.isMenuOpen = false ∧ s.ariaExpanded = "false" ∧ s.toggleActive = false ∧
    s.overlayActive = false ∧ s.navLinksActive = false ∧ s.htmlMenuOpen = false

/-! ## `requestTick` coalescing (js/main.js lines 109–116 and 615–622)

```js
let ticking = false;
function update...() { ...; ticking = false; }
function requestTick() {
  if (!ticking) {
    requestAnimationFrame(update...);
    ticking = true;
  }
}
window.addEventListener('scroll', requestTick, { passive: true });
```

The browser is modelled by `pendingFrames`, the number of callbacks
currently queued via `requestAnimationFrame`; a frame fires one queued
callback, which recomputes from the latest scroll position and clears the
guard. -/

/-- The state of one scroll-effect listener together with the browser's
callback queue. -/
structure TickState where
  /-- The `ticking` guard flag. -/
  ticking : Bool
  /-- How many frame callbacks are queued via `requestAnimationFrame`. -/
  pendingFrames : ℕ
  /-- The scroll position the next recompute will read. -/
  latestScroll : ℚ
  /-- Log of recomputes that have run, each with the scroll position it
  read. -/
  recomputes : List ℚ
deriving DecidableEq, Repr

/-- A scroll event: the scroll position changes, then `requestTick` runs. -/
def onScroll (p : ℚ) (s : TickState) : TickState :=
  let s' := { s with latestScroll := p }
  if s'.ticking then s'
  else { s' with pendingFrames := s'.pendingFrames + 1, ticking := true }

/-- An animation frame: if a callback is queued it runs — recomputing from
the latest scroll position and clearing the guard. -/
def onFrame (s : TickState) : TickState :=
  if s.pendingFrames = 0 then s
  else { s with pendingFrames := s.pendingFrames - 1, ticking := false,
                recomputes := s.recomputes ++ [s.latestScroll] }

/-- A burst of scroll events between two frames. -/
def scrollBurst (ps : List ℚ) (s : TickState) : TickState :=
  ps.foldl (fun s p => onScroll p s) s

/-- The listener's idle state: guard clear, nothing queued. -/
def tickIdle (q : ℚ) : TickState := ⟨false, 0, q, []⟩

/-- The guard invariant: a callback is queued exactly while `ticking` is
set. -/
def framesInvariant (s : TickState) : Prop :=
  s.pendingFrames = if s.ticking then 1 else 0

theorem scrollBurst_ticking (ps : List ℚ) (k : ℕ) (q : ℚ) (l : List ℚ) :
    scrollBurst ps ⟨true, k, q, l⟩ = ⟨true, k, ps.getLastD q, l⟩ := by
  induction ps generalizing q with
  | nil => simp [scrollBurst]
  | cons p ps ih =>
      have h1 : onScroll p ⟨true, k, q, l⟩ = ⟨true, k, p, l⟩ := by
        simp [onScroll]
      rw [List.getLastD_cons]
      calc scrollBurst (p :: ps) ⟨true, k, q, l⟩
          = scrollBurst ps ⟨true, k, p, l⟩ := by simp [scrollBurst, h1]
        _ = ⟨true, k, ps.getLastD p, l⟩ := ih p

/-! ## Initializer element checks (js/main.js lines 12–15, 76–85, 122–131,
502–506, 558–567, 641–648)

Each initializer is modelled as a function of the `Option`-valued element
lookups it performs, returning `some ()` when it proceeds to register its
listeners and `none` when it returns early.  The call-site guard
`if (waitlistForm) initWaitlistForm(waitlistForm)` of the
`DOMContentLoaded` handler is `initWaitlistFormCall`. -/

/-- `initHeroFade`: `if (!hero || !header) return;` then
`if (prefersReducedMotion || isMobile) return;`. -/
def initHeroFade (hero header : Option Unit)
    (prefersReducedMotion isMobile : Bool) : Option Unit :=
  match hero, header with
  | some _, some _ => if prefersReducedMotion || isMobile then none else some ()
  | _, _ => none

/-- `initMobileMenu`: `if (!menuToggle || !navOverlay || !navLinks) return;`. -/
def initMobileMenu (menuToggle navOverlay navLinks : Option Unit) : Option Unit :=
  match menuToggle, navOverlay, navLinks with
  | some _, some _, some _ => some ()
  | _, _, _ => none

/-- `initOrbParallax`: `if (prefersReducedMotion || isMobile) return;` then
`if (!whatIsSection || orbs.length === 0) return;`. -/
def initOrbParallax (prefersReducedMotion isMobile : Bool)
    (whatIsSection : Option Unit) (orbCount : ℕ) : Option Unit :=
  if prefersReducedMotion || isMobile then none
  else
    match whatIsSection with
    | none => none
    | some _ => if orbCount = 0 then none else some ()

/-- `initFloatingOrbs`: `if (!orbContainer) return;`. -/
def initFloatingOrbs (orbContainer : Option Unit) : Option Unit :=
  match orbContainer with
  | none => none
  | some _ => some ()

/-- `initLifecyclePanel`: `if (!display || !icon || !title || !description
|| indicators.length === 0) return;`. -/
def initLifecyclePanel (display icon phaseTitle phaseText : Option Unit)
    (indicatorCount : ℕ) : Option Unit :=
  match display, icon, phaseTitle, phaseText with
  | some _, some _, some _, some _ => if indicatorCount = 0 then none else some ()
  | _, _, _, _ => none

/-- `initSectionHighlighting`: `if (sections.length === 0 ||
navLinks.length === 0) return;`. -/
def initSectionHighlighting (sectionCount navLinkCount : ℕ) : Option Unit :=
  if sectionCount = 0 || navLinkCount = 0 then none else some ()

/-- The `DOMContentLoaded` guard around `initWaitlistForm(waitlistForm)`. -/
def initWaitlistFormCall (waitlistForm : Option Unit) : Option Unit :=
  match waitlistForm with
  | none => none
  | some _ => some ()

/-- A concrete page state used to instantiate the claims: one entered
field, no messages shown, button enabled with its original label. -/
def sampleWaitlistState : WaitlistState :=
  ⟨["alice@example.com"], false, false, false, "Join Waitlist", false, false⟩

/-! ## The claims -/

/-- C1: For every scroll position and viewport geometry, each opacity value
the scroll-effects controller writes to an element style — the hero fade
opacity in `updateHeroFade` and each orb opacity in `updateOrbPositions` —
is a finite number in the closed interval `[0, 1]`. -/
theorem claim_C1 (scrollY : ℚ) (headerHeight : ℕ) (sectionHeight : ℕ)
    (scrollIntoSection : ℚ) (index : ℕ) (isMobile : Bool) :
    (∃ q : ℚ, heroOpacity scrollY headerHeight = .num q ∧ 0 ≤ q ∧ q ≤ 1) ∧
    (∃ q : ℚ, orbOpacity sectionHeight scrollIntoSection index isMobile = .num q ∧
      0 ≤ q ∧ q ≤ 1) :=
  ⟨heroOpacity_mem scrollY headerHeight,
   orbOpacity_mem sectionHeight scrollIntoSection index isMobile⟩

/-- C2, counterexample: the `scrollProgress` division of
`updateOrbPositions` is not clamped to `[0, 1]` — at section height 100
and scroll offset 250 it is `5/2` — and at section height 0 it is
infinite, so the orb transform's x-coordinate written on that frame is
`NaN` (shown for an arbitrary finite `Math.sin` table and `Math.PI ≈ 3`;
the value flows through `Math.sin(±∞) = NaN`). -/
theorem claim_C2_counterexample :
    scrollProgress 100 250 = JSVal.num (5 / 2) ∧ ¬ ((5 : ℚ) / 2 ≤ 1) ∧
    scrollProgress 0 100 = JSVal.inf ∧
    orbX (fun _ => 0) 3 0 100 0 false = JSVal.nan := by
  refine ⟨?_, by norm_num, ?_, ?_⟩
  · rw [scrollProgress, jsDiv_num_of_ne _ _ (by norm_num)]
    norm_num
  · rw [scrollProgress, Nat.cast_zero, jsDiv_num_zero_pos _ (by norm_num)]
  · rfl

/-- C2, amended: of the two divisions, only `fadeProgress` in
`updateHeroFade` is clamped to `[0, 1]` (its divisor is moreover never
zero, the header height being an integer); `scrollProgress` in
`updateOrbPositions` is unclamped and can be non-finite, but it feeds only
the transform — every opacity value written stays in `[0, 1]` even when
the section height is zero. -/
theorem claim_C2 (scrollY : ℚ) (headerHeight : ℕ) (scrollIntoSection : ℚ)
    (index : ℕ) (isMobile : Bool) :
    (∃ p : ℚ, fadeProgress scrollY headerHeight = .num p ∧ 0 ≤ p ∧ p ≤ 1) ∧
    (∃ q : ℚ, orbOpacity 0 scrollIntoSection index isMobile = .num q ∧
      0 ≤ q ∧ q ≤ 1) :=
  ⟨fadeProgress_mem scrollY headerHeight,
   orbOpacity_mem 0 scrollIntoSection index isMobile⟩

/-- C3: On a submission whose response has `response.ok` true, the handler
resets the form (clearing every entered value), appends the confirmation
message, schedules its removal at its fixed 5000 ms duration, and
schedules the button restore — original label, re-enabled, `success` class
dropped — at its own fixed 3000 ms delay; firing those timers has exactly
that effect. -/
theorem claim_C3 (s : WaitlistState) (body : List (String × String)) :
    ∃ s' timers,
      handleSubmit (some ()) (.ok ⟨true, body⟩) s = .ok (s', timers) ∧
      s'.formValues = s.formValues.map (fun _ => "") ∧
      s'.successMsgPresent = true ∧
      timers = [(5000, .removeSuccessMsg), (3000, .resetButtonFromSuccess s.buttonHTML)] ∧
      (fireTimer .removeSuccessMsg s').successMsgPresent = false ∧
      (fireTimer (.resetButtonFromSuccess s.buttonHTML) s').buttonHTML = s.buttonHTML ∧
      (fireTimer (.resetButtonFromSuccess s.buttonHTML) s').buttonDisabled = false ∧
      (fireTimer (.resetButtonFromSuccess s.buttonHTML) s').buttonSuccessClass = false := by
  exact ⟨_, _, rfl, rfl, rfl, rfl, rfl, rfl, rfl, rfl⟩

/-- C4: On a submission ending in failure — `response.ok` false or a
network exception — the handler never resets the form (the entered values
are unchanged), appends the error message, and its single 5000 ms timer
removes the message and reverts the button to its original label, enabled,
with the `error` class dropped. -/
theorem claim_C4 (s : WaitlistState) (outcome : Except Unit Response)
    (hfail : failedOutcome outcome) :
    ∃ s',
      handleSubmit (some ()) outcome s = .ok (s', [(5000, .errorCleanup s.buttonHTML)]) ∧
      s'.formValues = s.formValues ∧
      s'.errorMsgPresent = true ∧
      (fireTimer (.errorCleanup s.buttonHTML) s').errorMsgPresent = false ∧
      (fireTimer (.errorCleanup s.buttonHTML) s').buttonHTML = s.buttonHTML ∧
      (fireTimer (.errorCleanup s.buttonHTML) s').buttonDisabled = false ∧
      (fireTimer (.errorCleanup s.buttonHTML) s').buttonErrorClass = false := by
  cases outcome with
  | error e => exact ⟨_, rfl, rfl, rfl, rfl, rfl, rfl, rfl⟩
  | ok r =>
      have hr : r.ok = false := hfail
      have h : handleSubmit (some ()) (.ok r) s =
          .ok (failurePath s.buttonHTML (submitStart s)) := by
        simp [handleSubmit, hr]
      exact ⟨(failurePath s.buttonHTML (submitStart s)).1,
        by rw [h]; rfl, rfl, rfl, rfl, rfl, rfl, rfl⟩

/-- C4 witness: a concrete failed response on the sample page state. -/
theorem claim_C4_witness :
    failedOutcome (.ok (⟨false, []⟩ : Response)) ∧
    ∃ s',
      handleSubmit (some ()) (.ok ⟨false, []⟩) sampleWaitlistState =
        .ok (s', [(5000, .errorCleanup sampleWaitlistState.buttonHTML)]) ∧
      s'.formValues = sampleWaitlistState.formValues ∧
      s'.errorMsgPresent = true ∧
      (fireTimer (.errorCleanup sampleWaitlistState.buttonHTML) s').errorMsgPresent = false ∧
      (fireTimer (.errorCleanup sampleWaitlistState.buttonHTML) s').buttonHTML =
        sampleWaitlistState.buttonHTML ∧
      (fireTimer (.errorCleanup sampleWaitlistState.buttonHTML) s').buttonDisabled = false ∧
      (fireTimer (.errorCleanup sampleWaitlistState.buttonHTML) s').buttonErrorClass = false :=
  ⟨rfl, claim_C4 sampleWaitlistState (.ok ⟨false, []⟩) rfl⟩

/-- C5: Left untouched, the lifecycle panel advances through exactly the 4
phases Seed → Operational → Vetted → Prestige → Seed, one step per fixed
4000 ms interval tick (after `n` ticks the index is `n % 4`); a tick while
the pointer hovers (after `mouseenter`) changes nothing, and after
`mouseleave` a tick advances again. -/
theorem claim_C5 (n : ℕ) (s : LifecycleState) :
    phases.length = 4 ∧
    phases.map Phase.title = ["Seed", "Operational", "Vetted", "Prestige"] ∧
    autoRotateMs = 4000 ∧
    nextPhaseIdx 3 = 0 ∧
    (lifecycleRun (List.replicate n .tick) lifecycleInit).currentPhase = n % 4 ∧
    (s.autoRotate = true →
      lifecycleStep .tick s = { s with currentPhase := (s.currentPhase + 1) % 4 }) ∧
    (lifecycleStep .mouseenter s).autoRotate = false ∧
    lifecycleStep .tick (lifecycleStep .mouseenter s) = lifecycleStep .mouseenter s ∧
    (lifecycleStep .mouseleave s).autoRotate = true ∧
    (lifecycleStep .tick (lifecycleStep .mouseleave s)).currentPhase =
      (s.currentPhase + 1) % 4 := by
  refine ⟨rfl, rfl, rfl, rfl, ?_, ?_, rfl, rfl, rfl, ?_⟩
  · have h := lifecycleRun_ticks n 0
    simp only [Nat.zero_mod, Nat.zero_add] at h
    rw [lifecycleInit, h]
  · intro h
    simp [lifecycleStep, h, nextPhaseIdx, phases]
  · simp [lifecycleStep, nextPhaseIdx, phases]

/-- C5 witness: a tick from phase index 2 with the interval active
advances to index `(2 + 1) % 4 = 3`. -/
theorem claim_C5_witness :
    lifecycleStep .tick ⟨2, true⟩ =
      { (⟨2, true⟩ : LifecycleState) with currentPhase := (2 + 1) % 4 } :=
  (claim_C5 5 ⟨2, true⟩).2.2.2.2.2.1 rfl

/-- C6: Starting from the closed-menu state, toggling the mobile menu
twice (open, then close) returns every ARIA attribute and CSS class the
toggle touches — `aria-expanded` on the toggle button, the `active`
classes on toggle, overlay and nav links, and the `menu-open` class on the
document element — to its value before the first call. -/
theorem claim_C6 (s : MenuState) (w1 w2 : ℚ) (h : closedMenuState s) :
    (toggleMenu w2 (toggleMenu w1 s)).isMenuOpen = s.isMenuOpen ∧
    (toggleMenu w2 (toggleMenu w1 s)).ariaExpanded = s.ariaExpanded ∧
    (toggleMenu w2 (toggleMenu w1 s)).toggleActive = s.toggleActive ∧
    (toggleMenu w2 (toggleMenu w1 s)).overlayActive = s.overlayActive ∧
    (toggleMenu w2 (toggleMenu w1 s)).navLinksActive = s.navLinksActive ∧
    (toggleMenu w2 (toggleMenu w1 s)).htmlMenuOpen = s.htmlMenuOpen := by
  obtain ⟨h1, h2, h3, h4, h5, h6⟩ := h
  simp [toggleMenu, h1, h2, h3, h4, h5, h6]

/-- C6 witness: the concrete closed page-load menu state, with measured
scrollbar widths 15 and 17 on the two toggles. -/
theorem claim_C6_witness :
    closedMenuState ⟨false, "false", false, false, false, false, none⟩ ∧
    (toggleMenu 17 (toggleMenu 15 ⟨false, "false", false, false, false, false, none⟩)).ariaExpanded =
      (⟨false, "false", false, false, false, false, none⟩ : MenuState).ariaExpanded ∧
    (toggleMenu 17 (toggleMenu 15 ⟨false, "false", false, false, false, false, none⟩)).htmlMenuOpen =
      (⟨false, "false", false, false, false, false, none⟩ : MenuState).htmlMenuOpen :=
  ⟨⟨rfl, rfl, rfl, rfl, rfl, rfl⟩,
   (claim_C6 ⟨false, "false", false, false, false, false, none⟩ 15 17
      ⟨rfl, rfl, rfl, rfl, rfl, rfl⟩).2.1,
   (claim_C6 ⟨false, "false", false, false, false, false, none⟩ 15 17
      ⟨rfl, rfl, rfl, rfl, rfl, rfl⟩).2.2.2.2.2⟩

/-- C7, counterexample: the waitlist submit handler does not check the
result of `this.querySelector('button[type="submit"]')`; on a form with no
submit button its first statement `submitButton.disabled = true` throws a
`TypeError`, so it is not true that no initializer-installed handler can
throw on a missing element. -/
theorem claim_C7_counterexample :
    handleSubmit none (.ok ⟨true, []⟩) sampleWaitlistState = .error () := rfl

/-- C7, amended: every initializer checks, at initialization time, for the
DOM elements it dereferences and returns without registering anything when
one is absent; the waitlist submit handler, however, dereferences the
submit button it looks up at submit time without a presence check and
throws when the form has no submit button. -/
theorem claim_C7 (hero header menuToggle navOverlay navLinks whatIs orbContainer
      dsp icn ttl dsc : Option Unit)
    (prm mob : Bool) (orbCount indicatorCount sectionCount navLinkCount : ℕ)
    (outcome : Except Unit Response) (s : WaitlistState) :
    (hero = none ∨ header = none → initHeroFade hero header prm mob = none) ∧
    (menuToggle = none ∨ navOverlay = none ∨ navLinks = none →
      initMobileMenu menuToggle navOverlay navLinks = none) ∧
    (whatIs = none ∨ orbCount = 0 → initOrbParallax prm mob whatIs orbCount = none) ∧
    (orbContainer = none → initFloatingOrbs orbContainer = none) ∧
    (dsp = none ∨ icn = none ∨ ttl = none ∨ dsc = none ∨ indicatorCount = 0 →
      initLifecyclePanel dsp icn ttl dsc indicatorCount = none) ∧
    (sectionCount = 0 ∨ navLinkCount = 0 →
      initSectionHighlighting sectionCount navLinkCount = none) ∧
    initWaitlistFormCall none = none ∧
    handleSubmit none outcome s = .error () := by
  refine ⟨?_, ?_, ?_, ?_, ?_, ?_, rfl, rfl⟩
  · rintro (rfl | rfl)
    · cases header <;> rfl
    · cases hero <;> rfl
  · rintro (rfl | rfl | rfl)
    · cases navOverlay <;> cases navLinks <;> rfl
    · cases menuToggle <;> cases navLinks <;> rfl
    · cases menuToggle <;> cases navOverlay <;> rfl
  · rintro (rfl | rfl)
    · simp [initOrbParallax]
    · cases whatIs <;> simp [initOrbParallax]
  · rintro rfl; rfl
  · rintro (rfl | rfl | rfl | rfl | rfl)
    · cases icn <;> cases ttl <;> cases dsc <;> rfl
    · cases dsp <;> cases ttl <;> cases dsc <;> rfl
    · cases dsp <;> cases icn <;> cases dsc <;> rfl
    · cases dsp <;> cases icn <;> cases ttl <;> rfl
    · cases dsp <;> cases icn <;> cases ttl <;> cases dsc <;>
        simp [initLifecyclePanel]
  · rintro (rfl | rfl) <;> simp [initSectionHighlighting]

/-- C7 witness for the amended claim: a page with the hero missing, the
nav overlay missing, the lifecycle indicators absent and no sections. -/
theorem claim_C7_witness :
    initHeroFade none (some ()) false false = none ∧
    initMobileMenu (some ()) none (some ()) = none ∧
    initOrbParallax false false (some ()) 0 = none ∧
    initFloatingOrbs none = none ∧
    initLifecyclePanel (some ()) (some ()) (some ()) (some ()) 0 = none ∧
    initSectionHighlighting 0 5 = none ∧
    initWaitlistFormCall none = none ∧
    handleSubmit none (.ok ⟨false, []⟩) sampleWaitlistState = .error () := by
  have h := claim_C7 none (some ()) (some ()) none (some ()) (some ()) none
    (some ()) (some ()) (some ()) (some ()) false false 0 0 0 5
    (.ok ⟨false, []⟩) sampleWaitlistState
  exact ⟨h.1 (Or.inl rfl), h.2.1 (Or.inr (Or.inl rfl)), h.2.2.1 (Or.inr rfl),
    (claim_C7 none (some ()) (some ()) none (some ()) (some ()) none
      (some ()) (some ()) (some ()) (some ()) false false 0 0 0 5
      (.ok ⟨false, []⟩) sampleWaitlistState).2.2.2.1 rfl,
    h.2.2.2.2.1 (Or.inr (Or.inr (Or.inr (Or.inr rfl)))),
    h.2.2.2.2.2.1 (Or.inl rfl), h.2.2.2.2.2.2.1, h.2.2.2.2.2.2.2⟩

/-- C8: The `ticking` guard coalesces scroll work to at most one queued
frame callback: a scroll event while the guard is set only updates the
latest scroll position, the guard invariant (one queued callback exactly
while `ticking`) is preserved by scrolls and frames, at most one callback
is ever queued, and a whole burst of scroll events from idle leaves one
queued callback whose frame performs a single recompute at the latest
scroll position. -/
theorem claim_C8 (s : TickState) (p q : ℚ) (ps : List ℚ) :
    (s.ticking = true → onScroll p s = { s with latestScroll := p }) ∧
    (framesInvariant s → framesInvariant (onScroll p s)) ∧
    (framesInvariant s → framesInvariant (onFrame s)) ∧
    (framesInvariant s → s.pendingFrames ≤ 1) ∧
    scrollBurst (p :: ps) (tickIdle q) = ⟨true, 1, (p :: ps).getLastD 0, []⟩ ∧
    (onFrame (scrollBurst (p :: ps) (tickIdle q))).recomputes = [(p :: ps).getLastD 0] := by
  have hburst : scrollBurst (p :: ps) (tickIdle q) = ⟨true, 1, ps.getLastD p, []⟩ := by
    have h1 : onScroll p (tickIdle q) = ⟨true, 1, p, []⟩ := by
      simp [onScroll, tickIdle]
    calc scrollBurst (p :: ps) (tickIdle q)
        = scrollBurst ps ⟨true, 1, p, []⟩ := by simp [scrollBurst, h1]
      _ = ⟨true, 1, ps.getLastD p, []⟩ := scrollBurst_ticking ps 1 p []
  refine ⟨?_, ?_, ?_, ?_, ?_, ?_⟩
  · intro h
    simp [onScroll, h]
  · intro h
    unfold framesInvariant at h ⊢
    unfold onScroll
    cases hb : s.ticking <;> simp [hb] at h ⊢ <;> simp [h]
  · intro h
    unfold framesInvariant at h ⊢
    unfold onFrame
    cases hb : s.ticking
    · have h0 : s.pendingFrames = 0 := by simpa [hb] using h
      simp [h0, hb]
    · have h1 : s.pendingFrames = 1 := by simpa [hb] using h
      simp [h1, hb]
  · intro h
    unfold framesInvariant at h
    cases hb : s.ticking <;> simp [hb] at h <;> omega
  · rw [hburst, List.getLastD_cons]
  · rw [hburst, List.getLastD_cons]
    simp [onFrame]

/-- C8 witness: a scroll at position 7 while a callback is pending only
records the new position, and the guard invariant holds afterwards. -/
theorem claim_C8_witness :
    onScroll 7 ⟨true, 1, 0, []⟩ = ⟨true, 1, 7, []⟩ ∧
    framesInvariant (onScroll 7 ⟨true, 1, 0, []⟩) ∧
    (onFrame (scrollBurst [3, 4, 5] (tickIdle 0))).recomputes = [[3, 4, 5].getLastD 0] :=
  ⟨(claim_C8 ⟨true, 1, 0, []⟩ 7 0 []).1 rfl,
   (claim_C8 ⟨true, 1, 0, []⟩ 7 0 []).2.1 rfl,
   (claim_C8 (tickIdle 0) 3 0 [4, 5]).2.2.2.2.2⟩

/-- C9: The submission outcome depends only on `response.ok`: two
responses with equal `ok` produce identical handler results — the same
branch, the same UI state and the same scheduled timers — whatever their
body fields. -/
theorem claim_C9 (s : WaitlistState) (r1 r2 : Response) (h : r1.ok = r2.ok) :
    handleSubmit (some ()) (.ok r1) s = handleSubmit (some ()) (.ok r2) s := by
  simp [handleSubmit, h]

/-- C9 witness: two ok responses with different bodies. -/
theorem claim_C9_witness :
    (⟨true, [("ref", "launch")]⟩ : Response).ok = (⟨true, []⟩ : Response).ok ∧
    handleSubmit (some ()) (.ok ⟨true, [("ref", "launch")]⟩) sampleWaitlistState =
      handleSubmit (some ()) (.ok ⟨true, []⟩) sampleWaitlistState :=
  ⟨rfl, claim_C9 sampleWaitlistState ⟨true, [("ref", "launch")]⟩ ⟨true, []⟩ rfl⟩

/-- C10: From the moment a submission begins the submit button's
`disabled` flag is true — set by the prologue, kept true by both the
success and the failure path — and it is only set false by the reset
timers: the 3000 ms button restore on success and the 5000 ms cleanup on
failure (the 5000 ms success-message removal leaves it untouched), so no
second submission can start while one is in flight or its result is
displayed. -/
theorem claim_C10 (s t : WaitlistState) (orig : String) :
    (submitStart s).buttonDisabled = true ∧
    (successPath orig (submitStart s)).1.buttonDisabled = true ∧
    (failurePath orig (submitStart s)).1.buttonDisabled = true ∧
    (successPath orig (submitStart s)).2 =
      [(5000, .removeSuccessMsg), (3000, .resetButtonFromSuccess orig)] ∧
    (failurePath orig (submitStart s)).2 = [(5000, .errorCleanup orig)] ∧
    (fireTimer .removeSuccessMsg t).buttonDisabled = t.buttonDisabled ∧
    (fireTimer (.resetButtonFromSuccess orig) t).buttonDisabled = false ∧
    (fireTimer (.errorCleanup orig) t).buttonDisabled = false :=
  ⟨rfl, rfl, rfl, rfl, rfl, rfl, rfl, rfl⟩
